/-
Verification of the kite-mcp authentication core: the token store
(`TokenManager` in src/auth/token-manager.ts) and the OAuth handshake
coordinator (`OAuthServer` in src/auth/oauth-server.ts).

Shallow embedding conventions:
  * The token file is modelled by `FileContent`: absent, present but not
    parsable as JSON (read failure or `JSON.parse` throwing), or present
    holding a parsed JSON object (`RawTokenData`, every field optional,
    mirroring the unchecked `as TokenData` cast in `loadToken`).
  * JavaScript timestamps: `new Date(s).getTime()` is modelled by an
    environment parameter `pd : String → Option Int` giving milliseconds
    since the epoch, `none` standing for an Invalid Date (`NaN`).  All
    comparisons against `NaN` are false in JavaScript, which the `none`
    branches of the definitions reproduce.
  * JavaScript string truthiness (`if (s)`, `s || d`) is modelled by
    `strTruthy` / `strOrDefault` on `Option String` (`none` = field
    absent / `undefined`, `some ""` = present but empty).
  * Environment failures of `fs.writeFileSync` / `fs.unlinkSync` are
    modelled by an `Option String` argument (`some msg` = the call throws
    an error whose message is `msg`).
  * The number division in `validateTokenExpiry` is modelled over `ℚ`.
-/
import Mathlib

/-- Truthiness of a JavaScript string-or-absent value: `undefined`, `null`
and `""` are falsy, every other string is truthy. -/
def strTruthy : Option String → Bool
  | none => false
  | some s => s != ""

/-- JavaScript `o || d` on a string-or-absent value. -/
def strOrDefault (o : Option String) (d : String) : String :=
  match o with
  | some s => if s = "" then d else s
  | none => d

/-- The validated token record (interface `TokenData` in
src/auth/token-manager.ts): `access_token`, `user_id`, `generated_at`
required, the rest optional. -/
structure TokenData where
  access_token : String
  refresh_token : Option String
  user_id : String
  user_name : Option String
  generated_at : String
  expires_at : Option String
  deriving DecidableEq

/-- The raw result of `JSON.parse` on the token file, before the
required-field validation in `loadToken`: every field may be missing. -/
structure RawTokenData where
  access_token : Option String
  refresh_token : Option String
  user_id : Option String
  user_name : Option String
  generated_at : Option String
  expires_at : Option String
  deriving DecidableEq

/-- State of the token file on disk. -/
inductive FileContent where
  | absent
  | unparsable
  | parsed (raw : RawTokenData)
  deriving DecidableEq

/-- Argument type of `saveToken`:
`Omit<TokenData, 'generated_at'> & { generated_at?: string }`. -/
structure SaveTokenInput where
  access_token : String
  refresh_token : Option String
  user_id : String
  user_name : Option String
  generated_at : Option String
  expires_at : Option String
  deriving DecidableEq

namespace TokenManager

/-- `TokenManager.saveToken`: completes the record by defaulting
`generated_at` to the current time (`tokenData.generated_at || new
Date().toISOString()`), then writes it to the token file, wrapping any
write error.  `now` is the ISO timestamp `new Date().toISOString()`;
`writeErr` models whether the file-system write throws. -/
def saveToken (writeErr : Option String) (now : String)
    (input : SaveTokenInput) : Except String FileContent :=
  let gen := strOrDefault input.generated_at now
  match writeErr with
  | some e => Except.error ("Failed to save token: " ++ e)
  | none =>
      Except.ok (FileContent.parsed
        { access_token := some input.access_token
          refresh_token := input.refresh_token
          user_id := some input.user_id
          user_name := input.user_name
          generated_at := some gen
          expires_at := input.expires_at })

/-- `TokenManager.loadToken`: absent file, unreadable/unparsable contents,
or a parsed object failing the required-field check all yield `none`
(the function catches its own `Invalid token data structure` throw and
returns `null`); otherwise the parsed object is returned. -/
def loadToken (fs : FileContent) : Option TokenData :=
  match fs with
  | FileContent.absent => none
  | FileContent.unparsable => none
  | FileContent.parsed raw =>
      if strTruthy raw.access_token = true ∧ strTruthy raw.user_id = true ∧
          strTruthy raw.generated_at = true then
        some { access_token := raw.access_token.getD ""
               refresh_token := raw.refresh_token
               user_id := raw.user_id.getD ""
               user_name := raw.user_name
               generated_at := raw.generated_at.getD ""
               expires_at := raw.expires_at }
      else none

/-- The `else` branch of `validateTokenExpiry`: elapsed hours since
`generated_at` must be strictly below 5 (`diffHours < 5` where
`diffHours = (now - generatedAt) / (1000 * 60 * 60)`).  An unparsable
`generated_at` gives `NaN`, and `NaN < 5` is false. -/
def freshnessCheck (pd : String → Option Int) (now : Int) (g : String) : Bool :=
  match pd g with
  | some gm => decide ((((now - gm : Int) : ℚ) / (1000 * 60 * 60)) < 5)
  | none => false

/-- `TokenManager.validateTokenExpiry`: if `expires_at` is truthy, valid
iff `now < new Date(expires_at)` (false when that date is invalid);
otherwise the 5-hour freshness window over `generated_at` applies. -/
def validateTokenExpiry (pd : String → Option Int) (now : Int)
    (t : TokenData) : Bool :=
  if strTruthy t.expires_at = true then
    match pd (t.expires_at.getD "") with
    | some e => decide (now < e)
    | none => false
  else
    freshnessCheck pd now t.generated_at

/-- `TokenManager.isTokenValid`: load the token, absent record is invalid,
otherwise defer to `validateTokenExpiry`. -/
def isTokenValid (pd : String → Option Int) (now : Int)
    (fs : FileContent) : Bool :=
  match loadToken fs with
  | none => false
  | some t => validateTokenExpiry pd now t

/-- `TokenManager.clearToken`: unlink the token file only when it exists
(`fs.existsSync` guard), wrapping any unlink error.  `unlinkErr` models
whether `fs.unlinkSync` throws. -/
def clearToken (unlinkErr : Option String)
    (fs : FileContent) : Except String FileContent :=
  match fs with
  | FileContent.absent => Except.ok FileContent.absent
  | _ =>
      match unlinkErr with
      | some e => Except.error ("Failed to clear token: " ++ e)
      | none => Except.ok FileContent.absent

end TokenManager

/-- Result of the external `kiteConnect.generateSession` call, as the
fields `handleOAuthCallback` reads off the `any`-typed response. -/
structure SessionResponse where
  access_token : String
  refresh_token : Option String
  user_id : String
  user_name : Option String
  deriving DecidableEq

/-- Settlement of the promise returned by `startAuthFlow`. -/
inductive FlowResult where
  | resolved (t : TokenData)
  | rejected (reason : String)
  deriving DecidableEq

/-- Query parameters of an inbound callback request
(`url.searchParams.get` returns `string | null`). -/
structure CallbackQuery where
  status : Option String
  request_token : Option String
  error_type : Option String
  deriving DecidableEq

/-- State of one authentication flow: whether the listener is up, whether
the 5-minute timer is still armed, whether the 1-second delayed shutdown
has been scheduled, the promise settlement (write-once), and the token
file managed through `TokenManager`. -/
structure OAuthState where
  serverRunning : Bool
  timerActive : Bool
  shutdownScheduled : Bool
  settled : Option FlowResult
  store : FileContent
  deriving DecidableEq

/-- An HTTP response of the listener: `Response` defaults to status 200,
the failure page sets 500. -/
structure HttpResponse where
  status : Nat
  body : String
  deriving DecidableEq

/-- JavaScript promise settlement: only the first `resolve`/`reject`
takes effect, later ones are ignored. -/
def promiseSettle (cur : Option FlowResult) (r : FlowResult) : Option FlowResult :=
  match cur with
  | some x => some x
  | none => some r

namespace OAuthServer

/-- The callback path the listener matches on. -/
def callbackPath : String := "/zerodha/auth/redirect"

/-- The fixed rejection reason used when the 5-minute timer fires. -/
def timeoutMessage : String :=
  "Authentication timeout - no callback received within 5 minutes"

/-- The timer duration passed to `setTimeout`: `5 * 60 * 1000` ms. -/
def authTimeoutMs : Nat := 5 * 60 * 1000

/-- `OAuthServer.startAuthFlow` (up to the first event): the listener is
serving, the timeout timer is armed, no shutdown is scheduled and the
promise is unsettled.  The token file is whatever it was before. -/
def startAuthFlow (store : FileContent) : OAuthState :=
  { serverRunning := true
    timerActive := true
    shutdownScheduled := false
    settled := none
    store := store }

/-- `OAuthServer.handleOAuthCallback`: reject unless
`status === 'success'` and `request_token` is truthy (reason
`error_type || 'OAuth callback failed'`); otherwise exchange the request
token for a session, build a `TokenData` with `generated_at = now` and no
`expires_at`, persist it via `TokenManager.saveToken`, and return it.
Exchange or save errors are wrapped as `Session generation failed: …`.
`nowIso` is `new Date().toISOString()` at callback time; `saveNow` the
same inside `saveToken`. -/
def handleOAuthCallback (exchange : String → Except String SessionResponse)
    (nowIso saveNow : String) (writeErr : Option String)
    (q : CallbackQuery) : Except String (TokenData × FileContent) :=
  if q.status = some "success" ∧ strTruthy q.request_token = true then
    match exchange (q.request_token.getD "") with
    | Except.error e => Except.error ("Session generation failed: " ++ e)
    | Except.ok resp =>
        let td : TokenData :=
          { access_token := resp.access_token
            refresh_token := resp.refresh_token
            user_id := resp.user_id
            user_name := resp.user_name
            generated_at := nowIso
            expires_at := none }
        match TokenManager.saveToken writeErr saveNow
            { access_token := td.access_token
              refresh_token := td.refresh_token
              user_id := td.user_id
              user_name := td.user_name
              generated_at := some td.generated_at
              expires_at := td.expires_at } with
        | Except.error e => Except.error ("Session generation failed: " ++ e)
        | Except.ok store2 => Except.ok (td, store2)
  else
    Except.error (strOrDefault q.error_type "OAuth callback failed")

/-- The `fetch` handler installed by `startAuthFlow`.  On the callback
path it runs `handleOAuthCallback`; success resolves the promise
(`cleanupAndResolve`: cancel the timer, resolve), schedules the delayed
shutdown and returns the 200 success page, failure rejects
(`cleanupAndReject`), schedules the shutdown and returns the 500 failure
page (the thrown `Error` prints as `Error: message`).  Every other path
returns the static waiting page and leaves the state untouched. -/
def fetchHandler (exchange : String → Except String SessionResponse)
    (nowIso saveNow : String) (writeErr : Option String)
    (path : String) (q : CallbackQuery)
    (s : OAuthState) : HttpResponse × OAuthState :=
  if path = callbackPath then
    match handleOAuthCallback exchange nowIso saveNow writeErr q with
    | Except.ok (td, store2) =>
        ({ status := 200
           body := "✅ Authentication successful! Token saved. You can close this window." },
         { serverRunning := s.serverRunning
           timerActive := false
           shutdownScheduled := true
           settled := promiseSettle s.settled (FlowResult.resolved td)
           store := store2 })
    | Except.error e =>
        ({ status := 500
           body := "❌ Authentication failed: Error: " ++ e },
         { serverRunning := s.serverRunning
           timerActive := false
           shutdownScheduled := true
           settled := promiseSettle s.settled (FlowResult.rejected e)
           store := s.store })
  else
    ({ status := 200, body := "Kite OAuth Server - Waiting for callback..." }, s)

/-- The `setTimeout` callback armed by `startAuthFlow`: it can only run
while the timer is armed (`clearTimeout` in `cleanupAndResolve` /
`cleanupAndReject` prevents a later fire); it stops the listener and
rejects with the fixed timeout reason. -/
def timeoutHandler (s : OAuthState) : OAuthState :=
  if s.timerActive = true then
    { serverRunning := false
      timerActive := false
      shutdownScheduled := s.shutdownScheduled
      settled := promiseSettle s.settled (FlowResult.rejected timeoutMessage)
      store := s.store }
  else s

/-- The delayed (1 second) shutdown scheduled after a callback settles:
stops the listener if it is still up. -/
def shutdownHandler (s : OAuthState) : OAuthState :=
  if s.shutdownScheduled = true then
    { serverRunning := false
      timerActive := s.timerActive
      shutdownScheduled := false
      settled := s.settled
      store := s.store }
  else s

end OAuthServer

/-- Date parser for a concrete environment: only the literal future
timestamp `2099-01-01T00:00:00Z` parses; every other string — in
particular `not-a-date` — is an Invalid Date. -/
def cexPd : String → Option Int :=
  fun s => if s = "2099-01-01T00:00:00Z" then some 100 else none

/-- A concrete token file: a loadable record with an unparsable
`generated_at` and a valid future `expires_at`. -/
def cexFile : FileContent :=
  FileContent.parsed
    { access_token := some "a", refresh_token := none, user_id := some "u",
      user_name := none, generated_at := some "not-a-date",
      expires_at := some "2099-01-01T00:00:00Z" }

/-- The rational division in `freshnessCheck` is equivalent to an integer
millisecond comparison: elapsed hours below 5 iff elapsed milliseconds
below `5 * 1000 * 60 * 60`. -/
theorem freshnessCheck_eq_ms (pd : String → Option Int) (now : Int) (g : String) :
    TokenManager.freshnessCheck pd now g =
      (match pd g with
       | some gm => decide (now - gm < 5 * (1000 * 60 * 60))
       | none => false) := by
  unfold TokenManager.freshnessCheck
  cases pd g with
  | none => rfl
  | some gm =>
      simp only
      rw [decide_eq_decide, div_lt_iff₀ (by norm_num : (0:ℚ) < 1000 * 60 * 60)]
      constructor
      · intro h
        exact_mod_cast h
      · intro h
        exact_mod_cast h

/-- Unfolding of `validateTokenExpiry` as an iff over the two branches:
true exactly when a truthy `expires_at` parses to a time strictly after
`now`, or `expires_at` is falsy and `generated_at` parses to a time less
than five hours (in milliseconds) before `now`. -/
theorem validateTokenExpiry_true_iff (pd : String → Option Int) (now : Int)
    (t : TokenData) :
    TokenManager.validateTokenExpiry pd now t = true ↔
      ((∃ es e, t.expires_at = some es ∧ es ≠ "" ∧ pd es = some e ∧ now < e) ∨
       (strTruthy t.expires_at = false ∧
        ∃ g, pd t.generated_at = some g ∧ now - g < 5 * (1000 * 60 * 60))) := by
  unfold TokenManager.validateTokenExpiry
  cases hx : t.expires_at with
  | none =>
      rw [freshnessCheck_eq_ms]
      cases hg : pd t.generated_at with
      | none => simp [strTruthy]
      | some gm => simp [strTruthy]
  | some es =>
      by_cases hes : es = ""
      · subst hes
        rw [freshnessCheck_eq_ms]
        cases hg : pd t.generated_at with
        | none => simp [strTruthy]
        | some gm => simp [strTruthy]
      · cases he : pd es with
        | none => simp [strTruthy, hes, he]
        | some e => simp [strTruthy, hes, he]

/-- Claim C1: for every stored token record, the validity check is true
iff, when the record carries an explicit (truthy, parsable) `expires_at`
timestamp, the current time is strictly before it, and otherwise the
elapsed time since `generated_at` is strictly less than 5 hours; when no
loadable record exists, `isTokenValid` returns false (no witnessing
record exists on the right-hand side). -/
theorem tokenValidity_characterization (pd : String → Option Int) (now : Int)
    (fs : FileContent) :
    TokenManager.isTokenValid pd now fs = true ↔
      ∃ t, TokenManager.loadToken fs = some t ∧
        ((∃ es e, t.expires_at = some es ∧ es ≠ "" ∧ pd es = some e ∧ now < e) ∨
         (strTruthy t.expires_at = false ∧
          ∃ g, pd t.generated_at = some g ∧ now - g < 5 * (1000 * 60 * 60))) := by
  unfold TokenManager.isTokenValid
  cases hl : TokenManager.loadToken fs with
  | none => simp
  | some t => simp [validateTokenExpiry_true_iff]

/-- Claim C5: `loadToken` is total (returns `Option`, never throws); it
returns a record exactly when the file holds a parsed object whose
`access_token`, `user_id` and `generated_at` are all present and
non-empty, and in that case it returns exactly the parsed fields.
A missing file, unparsable contents, or a missing/empty required field
all yield `none`. -/
theorem loadToken_robust (fs : FileContent) :
    ((TokenManager.loadToken fs).isSome = true ↔
      ∃ raw, fs = FileContent.parsed raw ∧
        strTruthy raw.access_token = true ∧ strTruthy raw.user_id = true ∧
        strTruthy raw.generated_at = true) ∧
    (∀ raw a u g, fs = FileContent.parsed raw →
      raw.access_token = some a → raw.user_id = some u →
      raw.generated_at = some g → a ≠ "" → u ≠ "" → g ≠ "" →
      TokenManager.loadToken fs = some
        { access_token := a
          refresh_token := raw.refresh_token
          user_id := u
          user_name := raw.user_name
          generated_at := g
          expires_at := raw.expires_at }) := by
  constructor
  · cases fs with
    | absent => simp [TokenManager.loadToken]
    | unparsable => simp [TokenManager.loadToken]
    | parsed raw =>
        by_cases h : strTruthy raw.access_token = true ∧ strTruthy raw.user_id = true ∧
            strTruthy raw.generated_at = true
        · simp [TokenManager.loadToken, h]
        · simp only [TokenManager.loadToken, if_neg h, Option.isSome_none,
            Bool.false_eq_true, false_iff, not_exists]
          intro raw2 hcon
          rcases hcon with ⟨hr, h1, h2, h3⟩
          cases hr
          exact h ⟨h1, h2, h3⟩
  · intro raw a u g hfs ha hu hg hane hune hgne
    subst hfs
    simp [TokenManager.loadToken, strTruthy, ha, hu, hg, hane, hune, hgne]

/-- Witness for claim C5 at a concrete parsed file. -/
theorem loadToken_robust_witness :
    TokenManager.loadToken (FileContent.parsed
        { access_token := some "a", refresh_token := none,
          user_id := some "u", user_name := some "n",
          generated_at := some "g", expires_at := none })
      = some { access_token := "a", refresh_token := none, user_id := "u",
               user_name := some "n", generated_at := "g", expires_at := none } := by
  exact (loadToken_robust _).2
    { access_token := some "a", refresh_token := none,
      user_id := some "u", user_name := some "n",
      generated_at := some "g", expires_at := none }
    "a" "u" "g" rfl rfl rfl rfl (by decide) (by decide) (by decide)

/-- Claim C6: when the write completes, `saveToken` followed by
`loadToken` returns exactly the saved fields, with `generated_at`
defaulted to the current time when absent (or empty) in the input; the
hypotheses require the non-emptiness the claim presupposes
(`access_token`, `user_id`, and an actual timestamp for the current
time, as `new Date().toISOString()` always produces). -/
theorem saveThenLoad_roundTrip (now : String) (input : SaveTokenInput)
    (store2 : FileContent)
    (hsave : TokenManager.saveToken none now input = Except.ok store2)
    (ha : input.access_token ≠ "") (hu : input.user_id ≠ "")
    (hg : strOrDefault input.generated_at now ≠ "") :
    TokenManager.loadToken store2 = some
      { access_token := input.access_token
        refresh_token := input.refresh_token
        user_id := input.user_id
        user_name := input.user_name
        generated_at := strOrDefault input.generated_at now
        expires_at := input.expires_at } := by
  simp only [TokenManager.saveToken, Except.ok.injEq] at hsave
  subst hsave
  simp [TokenManager.loadToken, strTruthy, ha, hu, hg]

/-- Witness for claim C6: saving a record with no `generated_at` and
loading it back returns the record with `generated_at` set to the
current time. -/
theorem saveThenLoad_roundTrip_witness :
    TokenManager.loadToken (FileContent.parsed
        { access_token := some "tok", refresh_token := some "r",
          user_id := some "uid", user_name := none,
          generated_at := some "2025-01-01T00:00:00.000Z",
          expires_at := none })
      = some { access_token := "tok", refresh_token := some "r", user_id := "uid",
               user_name := none, generated_at := "2025-01-01T00:00:00.000Z",
               expires_at := none } := by
  exact saveThenLoad_roundTrip "2025-01-01T00:00:00.000Z"
    { access_token := "tok", refresh_token := some "r", user_id := "uid",
      user_name := none, generated_at := none, expires_at := none }
    _ rfl (by decide) (by decide) (by decide)

/-- Claim C7: `clearToken` never errors on an absent file (whatever the
unlink environment would do), a successful clear leaves the file absent,
clearing again after a successful clear succeeds and changes nothing,
and `loadToken` afterwards returns `none`. -/
theorem clearToken_idempotent :
    (∀ e, TokenManager.clearToken e FileContent.absent
        = Except.ok FileContent.absent) ∧
    (∀ fs, TokenManager.clearToken none fs = Except.ok FileContent.absent) ∧
    (∀ e e2 fs fs2, TokenManager.clearToken e fs = Except.ok fs2 →
      TokenManager.clearToken e2 fs2 = Except.ok fs2 ∧
      TokenManager.loadToken fs2 = none) := by
  refine ⟨?_, ?_, ?_⟩
  · intro e
    rfl
  · intro fs
    cases fs <;> rfl
  · intro e e2 fs fs2 h
    have hfs2 : fs2 = FileContent.absent := by
      cases fs with
      | absent => simpa [TokenManager.clearToken] using h.symm
      | unparsable =>
          cases e with
          | none => simpa [TokenManager.clearToken] using h.symm
          | some msg => simp [TokenManager.clearToken] at h
      | parsed raw =>
          cases e with
          | none => simpa [TokenManager.clearToken] using h.symm
          | some msg => simp [TokenManager.clearToken] at h
    subst hfs2
    exact ⟨rfl, rfl⟩

/-- Witness for claim C7: clearing a present file succeeds, clearing
again succeeds unchanged, and a subsequent load is absent. -/
theorem clearToken_idempotent_witness :
    TokenManager.clearToken none FileContent.absent
        = Except.ok FileContent.absent ∧
    TokenManager.loadToken FileContent.absent = none := by
  exact clearToken_idempotent.2.2 none none FileContent.unparsable
    FileContent.absent rfl

/-- Claim C2: a flow started by `startAuthFlow` that receives a callback
request with `status=success` and a non-empty `request_token`, whose
session exchange succeeds, resolves its promise with a `TokenData` whose
credential fields come from the exchange response and whose
`generated_at` is the current time; the same record is persisted through
the token store (loading the resulting file returns it), and the HTTP
caller receives a 2xx page.  The non-emptiness hypotheses on the
response fields and timestamp reflect what a real exchange response and
`toISOString` produce. -/
theorem oauthSuccessCallback (exchange : String → Except String SessionResponse)
    (resp : SessionResponse) (rt nowIso saveNow : String)
    (q : CallbackQuery) (store : FileContent)
    (hst : q.status = some "success") (hrt : q.request_token = some rt)
    (hne : rt ≠ "") (hex : exchange rt = Except.ok resp)
    (hnow : nowIso ≠ "") (hacc : resp.access_token ≠ "")
    (huid : resp.user_id ≠ "") :
    (OAuthServer.fetchHandler exchange nowIso saveNow none
        OAuthServer.callbackPath q (OAuthServer.startAuthFlow store)).2.settled
      = some (FlowResult.resolved
          { access_token := resp.access_token
            refresh_token := resp.refresh_token
            user_id := resp.user_id
            user_name := resp.user_name
            generated_at := nowIso
            expires_at := none }) ∧
    TokenManager.loadToken
        (OAuthServer.fetchHandler exchange nowIso saveNow none
          OAuthServer.callbackPath q (OAuthServer.startAuthFlow store)).2.store
      = some { access_token := resp.access_token
               refresh_token := resp.refresh_token
               user_id := resp.user_id
               user_name := resp.user_name
               generated_at := nowIso
               expires_at := none } ∧
    200 ≤ (OAuthServer.fetchHandler exchange nowIso saveNow none
        OAuthServer.callbackPath q (OAuthServer.startAuthFlow store)).1.status ∧
    (OAuthServer.fetchHandler exchange nowIso saveNow none
        OAuthServer.callbackPath q (OAuthServer.startAuthFlow store)).1.status
      < 300 := by
  have hcb : OAuthServer.handleOAuthCallback exchange nowIso saveNow none q
      = Except.ok
          ({ access_token := resp.access_token
             refresh_token := resp.refresh_token
             user_id := resp.user_id
             user_name := resp.user_name
             generated_at := nowIso
             expires_at := none },
           FileContent.parsed
             { access_token := some resp.access_token
               refresh_token := resp.refresh_token
               user_id := some resp.user_id
               user_name := resp.user_name
               generated_at := some nowIso
               expires_at := none }) := by
    rw [OAuthServer.handleOAuthCallback, if_pos]
    · rw [hrt]
      simp only [Option.getD_some]
      rw [hex]
      simp [TokenManager.saveToken, strOrDefault, hnow]
    · rw [hst, hrt]
      simp [strTruthy, hne]
  rw [OAuthServer.fetchHandler, if_pos rfl, hcb]
  simp only [OAuthServer.startAuthFlow, promiseSettle]
  refine ⟨trivial, ?_, by norm_num, by norm_num⟩
  simp [TokenManager.loadToken, strTruthy, hacc, huid, hnow]

/-- Witness for claim C2 with a concrete exchange stub and query. -/
theorem oauthSuccessCallback_witness :
    (OAuthServer.fetchHandler
        (fun rt => if rt = "abc" then
            Except.ok { access_token := "tok", refresh_token := none,
                        user_id := "uid", user_name := some "Jane" }
          else Except.error "bad token")
        "2025-01-01T00:00:00.000Z" "2025-01-01T00:00:01.000Z" none
        OAuthServer.callbackPath
        { status := some "success", request_token := some "abc", error_type := none }
        (OAuthServer.startAuthFlow FileContent.absent)).2.settled
      = some (FlowResult.resolved
          { access_token := "tok", refresh_token := none, user_id := "uid",
            user_name := some "Jane", generated_at := "2025-01-01T00:00:00.000Z",
            expires_at := none }) := by
  exact (oauthSuccessCallback
      (fun rt => if rt = "abc" then
          Except.ok { access_token := "tok", refresh_token := none,
                      user_id := "uid", user_name := some "Jane" }
        else Except.error "bad token")
      { access_token := "tok", refresh_token := none,
        user_id := "uid", user_name := some "Jane" }
      "abc" "2025-01-01T00:00:00.000Z" "2025-01-01T00:00:01.000Z"
      { status := some "success", request_token := some "abc", error_type := none }
      FileContent.absent rfl rfl (by decide) rfl (by decide)
      (by decide) (by decide)).1

/-- Claim C4: a callback whose `status` is not `success` or whose
`request_token` is missing/empty rejects the promise with the
`error_type` reason when one is given (non-empty), or the generic
`OAuth callback failed` reason when `error_type` is absent; the HTTP
caller receives a non-2xx page (500) and the token store is untouched. -/
theorem oauthFailureCallback (exchange : String → Except String SessionResponse)
    (nowIso saveNow : String) (writeErr : Option String)
    (q : CallbackQuery) (store : FileContent)
    (hfail : ¬(q.status = some "success" ∧ strTruthy q.request_token = true)) :
    (OAuthServer.fetchHandler exchange nowIso saveNow writeErr
        OAuthServer.callbackPath q (OAuthServer.startAuthFlow store)).2.settled
      = some (FlowResult.rejected (strOrDefault q.error_type "OAuth callback failed")) ∧
    ¬(200 ≤ (OAuthServer.fetchHandler exchange nowIso saveNow writeErr
        OAuthServer.callbackPath q (OAuthServer.startAuthFlow store)).1.status ∧
      (OAuthServer.fetchHandler exchange nowIso saveNow writeErr
        OAuthServer.callbackPath q (OAuthServer.startAuthFlow store)).1.status < 300) ∧
    (OAuthServer.fetchHandler exchange nowIso saveNow writeErr
        OAuthServer.callbackPath q (OAuthServer.startAuthFlow store)).2.store = store ∧
    (∀ e, q.error_type = some e → e ≠ "" →
      (OAuthServer.fetchHandler exchange nowIso saveNow writeErr
          OAuthServer.callbackPath q (OAuthServer.startAuthFlow store)).2.settled
        = some (FlowResult.rejected e)) ∧
    (q.error_type = none →
      (OAuthServer.fetchHandler exchange nowIso saveNow writeErr
          OAuthServer.callbackPath q (OAuthServer.startAuthFlow store)).2.settled
        = some (FlowResult.rejected "OAuth callback failed")) := by
  have hcb : OAuthServer.handleOAuthCallback exchange nowIso saveNow writeErr q
      = Except.error (strOrDefault q.error_type "OAuth callback failed") := by
    rw [OAuthServer.handleOAuthCallback, if_neg hfail]
  rw [OAuthServer.fetchHandler, if_pos rfl, hcb]
  simp only [OAuthServer.startAuthFlow, promiseSettle]
  refine ⟨trivial, by norm_num, trivial, ?_, ?_⟩
  · intro e he hne
    rw [he]
    simp [strOrDefault, hne]
  · intro he
    rw [he]
    rfl

/-- Witness for claim C4: `status=failure&error_type=access_denied`
rejects with reason `access_denied`. -/
theorem oauthFailureCallback_witness :
    (OAuthServer.fetchHandler (fun _ => Except.error "unused")
        "now" "now" none OAuthServer.callbackPath
        { status := some "failure", request_token := some "abc",
          error_type := some "access_denied" }
        (OAuthServer.startAuthFlow FileContent.absent)).2.settled
      = some (FlowResult.rejected "access_denied") := by
  exact (oauthFailureCallback (fun _ => Except.error "unused")
      "now" "now" none
      { status := some "failure", request_token := some "abc",
        error_type := some "access_denied" }
      FileContent.absent (by decide)).2.2.2.1 "access_denied" rfl (by decide)

/-- Claim C8: while a flow is pending, a request on any path other than
the callback path receives the static waiting text with status 200 and
the state — promise settlement, token store, timer, listener, scheduled
shutdown — is exactly unchanged. -/
theorem nonCallbackPath_noEffect (exchange : String → Except String SessionResponse)
    (nowIso saveNow : String) (writeErr : Option String)
    (path : String) (q : CallbackQuery) (s : OAuthState)
    (hp : path ≠ OAuthServer.callbackPath) :
    OAuthServer.fetchHandler exchange nowIso saveNow writeErr path q s
      = ({ status := 200, body := "Kite OAuth Server - Waiting for callback..." },
         s) := by
  rw [OAuthServer.fetchHandler, if_neg hp]

/-- Witness for claim C8 at a concrete non-callback path. -/
theorem nonCallbackPath_noEffect_witness :
    OAuthServer.fetchHandler (fun _ => Except.error "unused") "now" "now" none
        "/" { status := none, request_token := none, error_type := none }
        (OAuthServer.startAuthFlow FileContent.absent)
      = ({ status := 200, body := "Kite OAuth Server - Waiting for callback..." },
         OAuthServer.startAuthFlow FileContent.absent) := by
  exact nonCallbackPath_noEffect (fun _ => Except.error "unused") "now" "now" none
    "/" { status := none, request_token := none, error_type := none }
    (OAuthServer.startAuthFlow FileContent.absent) (by decide)

/-- Claim C3: the timer is armed for 5 minutes; when it fires on a
freshly started flow the promise rejects with the fixed no-callback
timeout reason and the listener is stopped immediately; settlement is
one-shot — neither the timeout nor a later callback changes an
already-settled promise — and any callback-path request disarms the
timer, after which the timeout handler is a no-op. -/
theorem timeoutAndSettleOnce :
    OAuthServer.authTimeoutMs = 5 * 60 * 1000 ∧
    (∀ store : FileContent,
      (OAuthServer.timeoutHandler (OAuthServer.startAuthFlow store)).settled
          = some (FlowResult.rejected OAuthServer.timeoutMessage) ∧
      (OAuthServer.timeoutHandler (OAuthServer.startAuthFlow store)).serverRunning
          = false) ∧
    (∀ s r, s.settled = some r →
      (OAuthServer.timeoutHandler s).settled = some r) ∧
    (∀ s r exchange nowIso saveNow writeErr path q, s.settled = some r →
      (OAuthServer.fetchHandler exchange nowIso saveNow writeErr
          path q s).2.settled = some r) ∧
    (∀ s exchange nowIso saveNow writeErr q,
      (OAuthServer.fetchHandler exchange nowIso saveNow writeErr
          OAuthServer.callbackPath q s).2.timerActive = false) ∧
    (∀ s, s.timerActive = false → OAuthServer.timeoutHandler s = s) := by
  refine ⟨rfl, ?_, ?_, ?_, ?_, ?_⟩
  · intro store
    exact ⟨rfl, rfl⟩
  · intro s r h
    unfold OAuthServer.timeoutHandler
    split
    · simp [promiseSettle, h]
    · exact h
  · intro s r exchange nowIso saveNow writeErr path q h
    unfold OAuthServer.fetchHandler
    split
    · cases hcb : OAuthServer.handleOAuthCallback exchange nowIso saveNow writeErr q with
      | ok v =>
          obtain ⟨td, store2⟩ := v
          simp [promiseSettle, h]
      | error e => simp [promiseSettle, h]
    · exact h
  · intro s exchange nowIso saveNow writeErr q
    rw [OAuthServer.fetchHandler, if_pos rfl]
    cases OAuthServer.handleOAuthCallback exchange nowIso saveNow writeErr q with
    | ok v =>
        obtain ⟨td, store2⟩ := v
        rfl
    | error e => rfl
  · intro s h
    simp [OAuthServer.timeoutHandler, h]

/-- Witness for claim C3: a settled state survives the timeout handler
and a callback unchanged, and a disarmed timer makes the timeout handler
the identity. -/
theorem timeoutAndSettleOnce_witness :
    (OAuthServer.timeoutHandler
        { serverRunning := true, timerActive := true, shutdownScheduled := false,
          settled := some (FlowResult.rejected "already"),
          store := FileContent.absent }).settled
      = some (FlowResult.rejected "already") ∧
    (OAuthServer.fetchHandler (fun _ => Except.error "boom") "now" "now" none
        OAuthServer.callbackPath
        { status := none, request_token := none, error_type := none }
        { serverRunning := true, timerActive := false, shutdownScheduled := true,
          settled := some (FlowResult.rejected "already"),
          store := FileContent.absent }).2.settled
      = some (FlowResult.rejected "already") ∧
    OAuthServer.timeoutHandler
        { serverRunning := true, timerActive := false, shutdownScheduled := true,
          settled := some (FlowResult.rejected "already"),
          store := FileContent.absent }
      = { serverRunning := true, timerActive := false, shutdownScheduled := true,
          settled := some (FlowResult.rejected "already"),
          store := FileContent.absent } := by
  refine ⟨timeoutAndSettleOnce.2.2.1 _ _ rfl,
          timeoutAndSettleOnce.2.2.2.1 _ _ _ _ _ _ _ _ rfl,
          timeoutAndSettleOnce.2.2.2.2.2 _ rfl⟩

/-- Counterexample to claim C9 as stated: this stored record's
`generated_at` string does not parse as a timestamp, yet `isTokenValid`
returns true (not false), because the explicit-expiry branch never
consults `generated_at` — the claim's universal `returns false` over
records with any unparsable timestamp fails. -/
theorem invalidTimestamp_counterexample :
    cexPd "not-a-date" = none ∧
    TokenManager.loadToken cexFile
      = some { access_token := "a", refresh_token := none, user_id := "u",
               user_name := none, generated_at := "not-a-date",
               expires_at := some "2099-01-01T00:00:00Z" } ∧
    TokenManager.isTokenValid cexPd 50 cexFile = true := by
  refine ⟨by decide, by decide, by decide⟩

/-- Claim C9 (amended): for every stored record, when the timestamp the
validity check actually consults does not parse — the `expires_at`
string when truthy, otherwise the `generated_at` string — `isTokenValid`
returns false (the token is treated as expired) rather than raising; the
computation is total. -/
theorem invalidTimestamp_treatedExpired (pd : String → Option Int) (now : Int)
    (fs : FileContent) (t : TokenData)
    (hl : TokenManager.loadToken fs = some t)
    (h : (strTruthy t.expires_at = true ∧ pd (t.expires_at.getD "") = none) ∨
         (strTruthy t.expires_at = false ∧ pd t.generated_at = none)) :
    TokenManager.isTokenValid pd now fs = false := by
  simp only [TokenManager.isTokenValid, hl]
  unfold TokenManager.validateTokenExpiry
  rcases h with ⟨h1, h2⟩ | ⟨h1, h2⟩
  · rw [if_pos h1, h2]
  · rw [if_neg (by simp [h1]), freshnessCheck_eq_ms, h2]

/-- Witness for claim C9 (amended): a record with no `expires_at` and an
unparsable `generated_at` is invalid. -/
theorem invalidTimestamp_treatedExpired_witness :
    TokenManager.isTokenValid (fun _ => none) 0
      (FileContent.parsed
        { access_token := some "a", refresh_token := none, user_id := some "u",
          user_name := none, generated_at := some "bad", expires_at := none })
      = false := by
  exact invalidTimestamp_treatedExpired (fun _ => none) 0 _
    { access_token := "a", refresh_token := none, user_id := "u",
      user_name := none, generated_at := "bad", expires_at := none }
    (by decide) (Or.inr ⟨rfl, rfl⟩)

/-- Claim C10: every token record produced by the OAuth success path has
no `expires_at`, so its validity is always decided by the 5-hour
freshness branch — `validateTokenExpiry` on it coincides with
`freshnessCheck` for every parser and time — and the record persisted to
the store also has no `expires_at`. -/
theorem oauthToken_noExplicitExpiry (exchange : String → Except String SessionResponse)
    (nowIso saveNow : String) (writeErr : Option String) (q : CallbackQuery)
    (td : TokenData) (store2 : FileContent)
    (h : OAuthServer.handleOAuthCallback exchange nowIso saveNow writeErr q
      = Except.ok (td, store2)) :
    td.expires_at = none ∧
    (∀ pd now, TokenManager.validateTokenExpiry pd now td
        = TokenManager.freshnessCheck pd now td.generated_at) ∧
    (∀ t2, TokenManager.loadToken store2 = some t2 → t2.expires_at = none) := by
  unfold OAuthServer.handleOAuthCallback at h
  by_cases hc : q.status = some "success" ∧ strTruthy q.request_token = true
  · rw [if_pos hc] at h
    cases hex : exchange (q.request_token.getD "") with
    | error e =>
        rw [hex] at h
        simp at h
    | ok resp =>
        rw [hex] at h
        cases writeErr with
        | some msg => simp [TokenManager.saveToken] at h
        | none =>
            simp only [TokenManager.saveToken, Except.ok.injEq, Prod.mk.injEq] at h
            obtain ⟨htd, hstore⟩ := h
            subst htd
            subst hstore
            refine ⟨rfl, ?_, ?_⟩
            · intro pd now
              rfl
            · intro t2 hl
              simp only [TokenManager.loadToken] at hl
              split at hl
              · injection hl with hl2
                subst hl2
                rfl
              · cases hl
  · rw [if_neg hc] at h
    simp at h

/-- Witness for claim C10: the record built from a concrete successful
exchange validates through the freshness branch. -/
theorem oauthToken_noExplicitExpiry_witness :
    TokenManager.validateTokenExpiry (fun _ => some 0) 7
        { access_token := "tok", refresh_token := none, user_id := "uid",
          user_name := none, generated_at := "now", expires_at := none }
      = TokenManager.freshnessCheck (fun _ => some 0) 7 "now" := by
  exact (oauthToken_noExplicitExpiry
      (fun _ => Except.ok { access_token := "tok", refresh_token := none,
                            user_id := "uid", user_name := none })
      "now" "save" none
      { status := some "success", request_token := some "abc", error_type := none }
      _ _ rfl).2.1 (fun _ => some 0) 7
